import Mathlib

/-!
Verification of the click-counter MVC demo (`src/contador_cliques_mvc.py`).

The Python program has three components:
- `ClickCounterModel`: an integer counter `_count` and an observer list
  `_observers`; `increment`/`reset` mutate the counter and then call
  `update()` on every observer in list order (`_notify_observers`).
- `ClickCounterView`: a Tk window with two callback slots
  (`_click_listener`, `_reset_listener`) and a numeric label updated by
  `update_display`.
- `ClickCounterController`: an `Observer` that wires the two together.

The embedding below is a direct state-passing translation.  Side effects
of `observer.update()` are recorded as a trace: a mutator returns the new
model state together with the list of observers whose `update()` it
invoked, in invocation order (the loop in `_notify_observers` is
synchronous, so the whole trace happens before the mutator returns).
Console prints are observability only and are not modelled.
-/

set_option autoImplicit false

/-- A candidate subscriber object, as Python's object model sees it:
`is_instance_of_Observer` records whether `isinstance(x, Observer)` holds
(i.e. the object's class inherits from the `Observer` ABC), and
`has_update_method` records whether the object exposes a no-argument
`update` method.  In Python the first implies the second for any
instantiable class (the ABC machinery refuses to instantiate a subclass
that leaves `update` abstract), but not conversely: a duck-typed object
with an `update` method need not inherit from `Observer`. `id` makes
distinct objects distinguishable. -/
structure Subscriber where
  id : Nat
  is_instance_of_Observer : Bool
  has_update_method : Bool
deriving DecidableEq, Repr

namespace ClickCounterModelDefs

/-- State of `ClickCounterModel`: `_count` (a Python `int`, hence `Int`)
and `_observers` (a Python list, in append order). -/
structure ClickCounterModel where
  count : Int
  observers : List Subscriber
deriving DecidableEq, Repr

/-- `ClickCounterModel.__init__`: `self._count = 0; self._observers = []`. -/
def initModel : ClickCounterModel := ⟨0, []⟩

/-- `get_count`: returns `self._count`, no side effects. -/
def get_count (m : ClickCounterModel) : Int := m.count

/-- `_notify_observers`: `for observer in self._observers: observer.update()`.
The returned list is the sequence of `update()` invocations, in order. -/
def notify_observers (m : ClickCounterModel) : List Subscriber := m.observers

/-- `increment`: `self._count += 1; self._notify_observers()`.
Returns the new state and the trace of `update()` invocations. -/
def increment (m : ClickCounterModel) : ClickCounterModel × List Subscriber :=
  let m' : ClickCounterModel := { m with count := m.count + 1 }
  (m', notify_observers m')

/-- `reset`: `self._count = 0; self._notify_observers()`.
Returns the new state and the trace of `update()` invocations. -/
def reset (m : ClickCounterModel) : ClickCounterModel × List Subscriber :=
  let m' : ClickCounterModel := { m with count := 0 }
  (m', notify_observers m')

/-- `add_observer`: raises `TypeError` unless `isinstance(observer, Observer)`;
otherwise `self._observers.append(observer)`. -/
def add_observer (m : ClickCounterModel) (s : Subscriber) :
    Except String ClickCounterModel :=
  if s.is_instance_of_Observer then
    Except.ok { m with observers := m.observers ++ [s] }
  else
    Except.error "Observador deve implementar a interface Observer"

/-- `remove_observer`: `if observer in self._observers:
self._observers.remove(observer)` — Python's `list.remove` deletes the
first occurrence (by `==`), which is `List.erase`. -/
def remove_observer (m : ClickCounterModel) (s : Subscriber) : ClickCounterModel :=
  if s ∈ m.observers then { m with observers := m.observers.erase s } else m

/-- The calls an external client can make on the model. -/
inductive Op where
  | inc
  | res
  | addObs (s : Subscriber)
  | remObs (s : Subscriber)
deriving DecidableEq, Repr

/-- One client call: new state plus the trace of `update()` invocations it
caused.  A failed `add_observer` propagates no state change (the raise
happens before the append). -/
def stepOp (m : ClickCounterModel) : Op → ClickCounterModel × List Subscriber
  | Op.inc => increment m
  | Op.res => reset m
  | Op.addObs s =>
      match add_observer m s with
      | Except.ok m' => (m', [])
      | Except.error _ => (m, [])
  | Op.remObs s => (remove_observer m s, [])

/-- Run a sequence of client calls, concatenating the `update()` traces. -/
def runOps (m : ClickCounterModel) : List Op → ClickCounterModel × List Subscriber
  | [] => (m, [])
  | op :: ops =>
      ((runOps (stepOp m op).1 ops).1,
       (stepOp m op).2 ++ (runOps (stepOp m op).1 ops).2)

/-- A mutator call: `increment()` or `reset()`. -/
inductive MOp where
  | inc
  | res
deriving DecidableEq, Repr

/-- Run a sequence of mutator calls (`increment`/`reset`), keeping the
final state. -/
def applyMut (m : ClickCounterModel) : List MOp → ClickCounterModel
  | [] => m
  | MOp.inc :: rest => applyMut (increment m).1 rest
  | MOp.res :: rest => applyMut (reset m).1 rest

/-- The number of `increment()` calls since the most recent `reset()`
(or since the start when no `reset()` occurs): the length of the final
run of increments in the call sequence.  This definition follows the
spec's words, to be compared with the counter the code maintains. -/
def increments_since_last_reset (ops : List MOp) : Nat :=
  (ops.reverse.takeWhile (· == MOp.inc)).length

/-- A well-behaved subscriber: its class inherits from the `Observer`
ABC (so `isinstance` accepts it) and it has an `update` method. -/
def conforming_subscriber : Subscriber := ⟨1, true, true⟩

/-- A duck-typed subscriber: it exposes a no-argument `update` method but
its class does not inherit from the `Observer` ABC, so
`isinstance(x, Observer)` is `False` for it. -/
def duck_subscriber : Subscriber := ⟨2, false, true⟩

end ClickCounterModelDefs

namespace ClickCounterViewDefs

/-- State of `ClickCounterView` relevant to behaviour: the two callback
slots and the numeric label's text and foreground colour.  `κ` is the
type of the stored callbacks.  The widget-layout code in `__init__` has
no behavioural content beyond the initial label (`text="0"`,
`foreground="#0066cc"`) and the listeners being initialised to `None`. -/
structure ClickCounterView (κ : Type) where
  click_listener : Option κ
  reset_listener : Option κ
  display_text : String
  display_color : String
deriving DecidableEq, Repr

/-- `ClickCounterView.__init__`: label text `"0"`, colour `#0066cc`,
`self._click_listener = None`, `self._reset_listener = None`. -/
def initView (κ : Type) : ClickCounterView κ := ⟨none, none, "0", "#0066cc"⟩

/-- `set_click_listener`: `self._click_listener = callback`
(overwrites any previous callback). -/
def set_click_listener {κ : Type} (v : ClickCounterView κ) (c : κ) :
    ClickCounterView κ :=
  { v with click_listener := some c }

/-- `set_reset_listener`: `self._reset_listener = callback`
(overwrites any previous callback). -/
def set_reset_listener {κ : Type} (v : ClickCounterView κ) (c : κ) :
    ClickCounterView κ :=
  { v with reset_listener := some c }

/-- `_on_click_pressed`: `if self._click_listener: self._click_listener()`.
For a slot holding `None` or a callable, Python's truthiness test equals
the `Option` test (callables are always truthy).  Returns the view state
after the handler's own code (which changes nothing) and the invoked
callback, `none` when the press is a no-op. -/
def on_click_pressed {κ : Type} (v : ClickCounterView κ) :
    ClickCounterView κ × Option κ :=
  (v, v.click_listener)

/-- `_on_reset_pressed`: `if self._reset_listener: self._reset_listener()`. -/
def on_reset_pressed {κ : Type} (v : ClickCounterView κ) :
    ClickCounterView κ × Option κ :=
  (v, v.reset_listener)

/-- `update_display`: `self.count_display.config(text=str(count))`, then
the cosmetic colour rule (`count > 0` ⇒ blue, else grey). -/
def update_display {κ : Type} (v : ClickCounterView κ) (count : Int) :
    ClickCounterView κ :=
  { v with
    display_text := toString count
    display_color := if count > 0 then "#0066cc" else "#999999" }

end ClickCounterViewDefs

namespace AppDefs

open ClickCounterModelDefs ClickCounterViewDefs

/-- The two bound methods of `ClickCounterController` that are stored in
the view's callback slots. -/
inductive ControllerCb where
  | on_click
  | on_reset
deriving DecidableEq, Repr

/-- The controller object as a subscriber: `ClickCounterController`
inherits from `Observer` and implements `update`. -/
def controller_observer : Subscriber := ⟨0, true, true⟩

/-- The wired application: the model and the view the controller holds
(`self.model`, `self.view`). -/
structure App where
  model : ClickCounterModel
  view : ClickCounterView ControllerCb
deriving DecidableEq, Repr

/-- `ClickCounterController.update`: `count = self.model.get_count();
self.view.update_display(count)` (the print is diagnostics only). -/
def controller_update (m : ClickCounterModel)
    (v : ClickCounterView ControllerCb) : ClickCounterView ControllerCb :=
  update_display v (get_count m)

/-- Effect on the view of a trace of `update()` invocations: the
controller is the only observer in this program whose `update()` touches
the view; any other subscriber's `update()` leaves it alone. -/
def notify_effect (m' : ClickCounterModel) (tr : List Subscriber)
    (v : ClickCounterView ControllerCb) : ClickCounterView ControllerCb :=
  tr.foldl (fun vv o => if o = controller_observer then controller_update m' vv else vv) v

/-- Running a stored controller callback: `_on_click` calls
`self.model.increment()`, `_on_reset` calls `self.model.reset()`; the
notification loop inside the mutator drives the controller's `update`,
which repaints the view. -/
def run_cb (a : App) : ControllerCb → App
  | ControllerCb.on_click =>
      ⟨(increment a.model).1,
       notify_effect (increment a.model).1 (increment a.model).2 a.view⟩
  | ControllerCb.on_reset =>
      ⟨(reset a.model).1,
       notify_effect (reset a.model).1 (reset a.model).2 a.view⟩

/-- A user-visible input event: pressing one of the two buttons. -/
inductive Press where
  | click
  | reset_button
deriving DecidableEq, Repr

/-- A button press: the view's press handler invokes the stored callback
if one is set, otherwise nothing happens. -/
def press (a : App) : Press → App
  | Press.click =>
      match (on_click_pressed a.view).2 with
      | none => a
      | some cb => run_cb a cb
  | Press.reset_button =>
      match (on_reset_pressed a.view).2 with
      | none => a
      | some cb => run_cb a cb

/-- `ClickCounterController.__init__`: set the two listeners, register
itself as an observer of the model, then call `self.update()` once so
the view starts synchronized. -/
def mk_controller (m : ClickCounterModel)
    (v : ClickCounterView ControllerCb) : App :=
  let v1 := set_click_listener v ControllerCb.on_click
  let v2 := set_reset_listener v1 ControllerCb.on_reset
  let m1 := match add_observer m controller_observer with
    | Except.ok m' => m'
    | Except.error _ => m
  ⟨m1, controller_update m1 v2⟩

/-- `main()`: fresh model, fresh view, controller wiring the two. -/
def init_app : App := mk_controller initModel (initView ControllerCb)

/-- Run a sequence of button presses. -/
def run_presses (a : App) : List Press → App
  | [] => a
  | p :: ps => run_presses (press a p) ps

/-- The wiring invariant of the running application: the controller is
the sole registered observer, both callback slots hold the controller's
handlers, and the displayed text is the decimal string of the model's
count. -/
def AppSynced (a : App) : Prop :=
  a.model.observers = [controller_observer] ∧
  a.view.click_listener = some ControllerCb.on_click ∧
  a.view.reset_listener = some ControllerCb.on_reset ∧
  a.view.display_text = toString (get_count a.model)

end AppDefs

open ClickCounterModelDefs ClickCounterViewDefs AppDefs

lemma applyMut_concat (ops : List MOp) (b : MOp) (m : ClickCounterModel) :
    applyMut m (ops ++ [b]) =
      (match b with
       | MOp.inc => (increment (applyMut m ops)).1
       | MOp.res => (reset (applyMut m ops)).1) := by
  induction ops generalizing m with
  | nil => cases b <;> rfl
  | cons o rest ih => cases o <;> simp [applyMut, ih]

lemma islr_concat_inc (ops : List MOp) :
    increments_since_last_reset (ops ++ [MOp.inc]) =
      increments_since_last_reset ops + 1 := by
  simp [increments_since_last_reset, List.takeWhile]

lemma islr_concat_res (ops : List MOp) :
    increments_since_last_reset (ops ++ [MOp.res]) = 0 := by
  simp [increments_since_last_reset, List.takeWhile]

lemma applyMut_count (ops : List MOp) :
    (applyMut initModel ops).count = (increments_since_last_reset ops : Int) := by
  induction ops using List.reverseRecOn with
  | nil => rfl
  | append_singleton ops b ih =>
      cases b
      · simp [applyMut_concat, increment, ih, islr_concat_inc]
      · simp [applyMut_concat, reset, islr_concat_res]

lemma runOps_avoids (s : Subscriber) (ops : List Op) :
    ∀ m : ClickCounterModel, s ∉ m.observers →
      (∀ op ∈ ops, op ≠ Op.addObs s) →
      s ∉ (runOps m ops).2 ∧ s ∉ (runOps m ops).1.observers := by
  induction ops with
  | nil =>
      intro m hm _
      exact ⟨by simp [runOps], hm⟩
  | cons op rest ih =>
      intro m hm hops
      have hrest : ∀ o ∈ rest, o ≠ Op.addObs s :=
        fun o ho => hops o (List.mem_cons_of_mem _ ho)
      have hstep : s ∉ (stepOp m op).2 ∧ s ∉ (stepOp m op).1.observers := by
        cases op with
        | inc => exact ⟨hm, hm⟩
        | res => exact ⟨hm, hm⟩
        | addObs t =>
            have hts : t ≠ s := by
              intro h
              exact hops (Op.addObs t) (List.mem_cons_self _ _) (by rw [h])
            by_cases hti : t.is_instance_of_Observer
            · refine ⟨by simp [stepOp, add_observer, hti], ?_⟩
              simp only [stepOp, add_observer, if_pos hti]
              intro hc
              rcases List.mem_append.mp hc with h | h
              · exact hm h
              · exact hts (List.mem_singleton.mp h).symm
            · simp only [stepOp, add_observer, if_neg hti]
              exact ⟨by simp, hm⟩
        | remObs t =>
            refine ⟨by simp [stepOp], ?_⟩
            simp only [stepOp, remove_observer]
            by_cases htm : t ∈ m.observers
            · simp only [if_pos htm]
              intro hc
              exact hm (List.mem_of_mem_erase hc)
            · simp only [if_neg htm]
              exact hm
      have htail := ih (stepOp m op).1 hstep.2 hrest
      refine ⟨?_, htail.2⟩
      simp only [runOps, List.mem_append]
      rintro (h | h)
      · exact hstep.1 h
      · exact htail.1 h

lemma init_app_synced : AppSynced init_app := by
  refine ⟨rfl, rfl, rfl, rfl⟩

lemma press_preserves_synced (a : App) (p : Press) (h : AppSynced a) :
    AppSynced (press a p) := by
  obtain ⟨h1, h2, h3, h4⟩ := h
  cases p with
  | click =>
      have hp : press a Press.click = run_cb a ControllerCb.on_click := by
        simp [press, on_click_pressed, h2]
      rw [hp]
      refine ⟨?_, ?_, ?_, ?_⟩ <;>
        simp [run_cb, increment, notify_observers, h1, notify_effect,
          controller_update, update_display, get_count, h2, h3]
  | reset_button =>
      have hp : press a Press.reset_button = run_cb a ControllerCb.on_reset := by
        simp [press, on_reset_pressed, h3]
      rw [hp]
      refine ⟨?_, ?_, ?_, ?_⟩ <;>
        simp [run_cb, reset, notify_observers, h1, notify_effect,
          controller_update, update_display, get_count, h2, h3]

lemma run_presses_synced (ps : List Press) :
    ∀ a : App, AppSynced a → AppSynced (run_presses a ps) := by
  induction ps with
  | nil => intro a h; exact h
  | cons p rest ih =>
      intro a h
      exact ih _ (press_preserves_synced a p h)

/-- C1.  For every finite sequence of `increment()`/`reset()` calls
starting from construction, `get_count()` is the number of increments
since the most recent reset (or since construction), and `count >= 0`.
Since the statement holds for every call sequence, it holds at every
point of a longer sequence (each point is the state after a prefix). -/
theorem increment_reset_count_invariant (ops : List MOp) :
    get_count (applyMut initModel ops) = (increments_since_last_reset ops : Int) ∧
    0 ≤ get_count (applyMut initModel ops) := by
  constructor
  · exact applyMut_count ops
  · rw [get_count, applyMut_count ops]
    exact Int.ofNat_nonneg _

/-- C2.  The trace of `update()` invocations performed by `increment()`
(and by `reset()`) is exactly the observer list at the time of the call:
each registered entry is invoked exactly once, in registration order, and
(the trace being returned by the mutator itself) every invocation
completes before the mutator returns.  Consequently each subscriber is
invoked once per registration it holds. -/
theorem mutators_notify_in_registration_order (m : ClickCounterModel) :
    (increment m).2 = m.observers ∧ (reset m).2 = m.observers ∧
    (∀ s : Subscriber, ((increment m).2).count s = m.observers.count s) ∧
    (∀ s : Subscriber, ((reset m).2).count s = m.observers.count s) := by
  refine ⟨rfl, rfl, fun s => rfl, fun s => rfl⟩

/-- C3.  `increment()` sets the counter to its previous value plus 1,
leaves the observer list unchanged, and then notifies all subscribers in
registration order.  It is a total function of the model state (the
Python body has no raise path), so it never fails on any state. -/
theorem increment_adds_one_and_notifies (m : ClickCounterModel) :
    get_count (increment m).1 = get_count m + 1 ∧
    (increment m).1.observers = m.observers ∧
    (increment m).2 = (increment m).1.observers := by
  exact ⟨rfl, rfl, rfl⟩

/-- C4.  Calling `reset()` when the count is already `0` leaves the count
at `0` and still performs exactly one notification cycle: the trace is
the whole observer list, in order, each entry invoked exactly once. -/
theorem reset_idempotent_still_notifies (m : ClickCounterModel)
    (h : get_count m = 0) :
    get_count (reset m).1 = 0 ∧ (reset m).2 = m.observers ∧
    ∀ s : Subscriber, ((reset m).2).count s = m.observers.count s := by
  exact ⟨rfl, rfl, fun s => rfl⟩

/-- Witness for C4 at a concrete state: count `0`, one registered
observer. -/
theorem reset_idempotent_still_notifies_witness :
    get_count (reset ⟨0, [⟨0, true, true⟩]⟩).1 = 0 ∧
    (reset (⟨0, [⟨0, true, true⟩]⟩ : ClickCounterModel)).2 = [⟨0, true, true⟩] ∧
    ∀ s : Subscriber,
      ((reset (⟨0, [⟨0, true, true⟩]⟩ : ClickCounterModel)).2).count s =
        ([⟨0, true, true⟩] : List Subscriber).count s :=
  reset_idempotent_still_notifies ⟨0, [⟨0, true, true⟩]⟩ (by decide)

/-- Counterexample to C5 as stated: `duck_subscriber` satisfies the
"update" capability contract (it exposes a no-argument `update` method),
yet `add_observer` rejects it, because the code tests
`isinstance(observer, Observer)`, not the presence of `update`. -/
theorem add_observer_duck_typing_cex :
    duck_subscriber.has_update_method = true ∧
    add_observer initModel duck_subscriber =
      Except.error "Observador deve implementar a interface Observer" :=
  ⟨rfl, rfl⟩

/-- C5 amended.  `add_observer(s)` fails with a `TypeError` if and only
if `s` is not an `isinstance` of the `Observer` abstract base class;
on failure no state change happens (the raise precedes the append), and
on success `s` is appended to the end of the subscriber list. -/
theorem add_observer_requires_Observer_instance
    (m : ClickCounterModel) (s : Subscriber) :
    (s.is_instance_of_Observer = true →
      add_observer m s = Except.ok { m with observers := m.observers ++ [s] }) ∧
    (s.is_instance_of_Observer = false →
      add_observer m s =
          Except.error "Observador deve implementar a interface Observer" ∧
        stepOp m (Op.addObs s) = (m, [])) := by
  constructor
  · intro h
    simp [add_observer, h]
  · intro h
    simp [stepOp, add_observer, h]

/-- Witness for C5 amended, at concrete inputs: the conforming subscriber
is appended, the duck-typed one is rejected with the model unchanged. -/
theorem add_observer_requires_Observer_instance_witness :
    (add_observer initModel conforming_subscriber =
      Except.ok { initModel with
                  observers := initModel.observers ++ [conforming_subscriber] }) ∧
    (add_observer initModel duck_subscriber =
        Except.error "Observador deve implementar a interface Observer" ∧
      stepOp initModel (Op.addObs duck_subscriber) = (initModel, [])) :=
  ⟨(add_observer_requires_Observer_instance initModel conforming_subscriber).1 rfl,
   (add_observer_requires_Observer_instance initModel duck_subscriber).2 rfl⟩

/-- C6.  `remove_observer(s)` removes the first matching entry when `s`
is present (decomposing the list as `l₁ ++ s :: l₂` with no match in
`l₁`, the result is `l₁ ++ l₂`), leaves the counter untouched, and is a
silent no-op when `s` is absent. -/
theorem remove_observer_first_match_or_noop
    (m : ClickCounterModel) (s : Subscriber) (l₁ l₂ : List Subscriber) :
    (s ∉ m.observers → remove_observer m s = m) ∧
    (m.observers = l₁ ++ s :: l₂ → s ∉ l₁ →
      (remove_observer m s).observers = l₁ ++ l₂ ∧
      (remove_observer m s).count = m.count) := by
  constructor
  · intro h
    simp [remove_observer, h]
  · intro hobs hnot
    have hmem : s ∈ m.observers := by
      rw [hobs]
      exact List.mem_append_right _ (List.mem_cons_self _ _)
    have herase : (m.observers).erase s = l₁ ++ l₂ := by
      rw [hobs, List.erase_append_right _ hnot, List.erase_cons_head]
    exact ⟨by simp [remove_observer, hmem, herase],
           by simp [remove_observer, hmem]⟩

/-- Witness for C6 at concrete inputs: removing from
`[conforming_subscriber, duck_subscriber, conforming_subscriber]` deletes
only the first occurrence; removing an absent subscriber changes
nothing. -/
theorem remove_observer_first_match_or_noop_witness :
    (remove_observer initModel conforming_subscriber = initModel) ∧
    ((remove_observer
        ⟨5, [conforming_subscriber, duck_subscriber, conforming_subscriber]⟩
        conforming_subscriber).observers =
          [duck_subscriber, conforming_subscriber] ∧
      (remove_observer
        ⟨5, [conforming_subscriber, duck_subscriber, conforming_subscriber]⟩
        conforming_subscriber).count = 5) :=
  ⟨(remove_observer_first_match_or_noop initModel conforming_subscriber [] []).1
      (by decide),
   (remove_observer_first_match_or_noop
      ⟨5, [conforming_subscriber, duck_subscriber, conforming_subscriber]⟩
      conforming_subscriber [] [duck_subscriber, conforming_subscriber]).2
      (by decide) (by decide)⟩

/-- Counterexample to C7 as stated: starting from construction, register
the same (conforming) subscriber twice, call `remove_observer` once with
no later re-registration — the next `increment()` still invokes the
subscriber's `update()`, because `list.remove` deleted only the first of
the two registrations. -/
theorem remove_observer_duplicate_cex :
    conforming_subscriber ∈
      (runOps initModel
        [Op.addObs conforming_subscriber, Op.addObs conforming_subscriber,
         Op.remObs conforming_subscriber, Op.inc]).2 := by
  decide

/-- C7 amended.  If `s` holds at most one registration at the time of
the `remove_observer(s)` call, then no subsequent call sequence that does
not re-register `s` ever invokes `s.update()`. -/
theorem unsubscribe_correct_when_unique
    (m : ClickCounterModel) (s : Subscriber) (ops : List Op)
    (hcount : m.observers.count s ≤ 1)
    (hnoadd : ∀ op ∈ ops, op ≠ Op.addObs s) :
    s ∉ (runOps (remove_observer m s) ops).2 := by
  have hnot : s ∉ (remove_observer m s).observers := by
    by_cases hmem : s ∈ m.observers
    · simp only [remove_observer, if_pos hmem]
      intro hc
      have h0 : (m.observers.erase s).count s = 0 := by
        rw [List.count_erase_self]
        have h1 : 0 < m.observers.count s := List.count_pos_iff.mpr hmem
        omega
      exact (List.count_eq_zero.mp h0) hc
    · simpa [remove_observer, hmem] using hmem
  exact (runOps_avoids s ops (remove_observer m s) hnot hnoadd).1

/-- Witness for C7 amended: a single registration of the subscriber,
removal, then an `increment()` that indeed does not notify it. -/
theorem unsubscribe_correct_when_unique_witness :
    conforming_subscriber ∉
      (runOps
        (remove_observer ⟨0, [conforming_subscriber]⟩ conforming_subscriber)
        [Op.inc]).2 :=
  unsubscribe_correct_when_unique ⟨0, [conforming_subscriber]⟩
    conforming_subscriber [Op.inc] (by decide) (by decide)

/-- C8.  A press with the corresponding slot unset is a no-op (no
callback invoked, view unchanged); after two registrations the press
invokes exactly the most recently registered callback, because the
setters overwrite the slot. -/
theorem press_handler_callback_slots {κ : Type} (v : ClickCounterView κ)
    (c₁ c₂ : κ) :
    (v.click_listener = none → on_click_pressed v = (v, none)) ∧
    (v.reset_listener = none → on_reset_pressed v = (v, none)) ∧
    (on_click_pressed (set_click_listener (set_click_listener v c₁) c₂)).2 =
      some c₂ ∧
    (on_reset_pressed (set_reset_listener (set_reset_listener v c₁) c₂)).2 =
      some c₂ := by
  refine ⟨?_, ?_, rfl, rfl⟩
  · intro h
    simp [on_click_pressed, h]
  · intro h
    simp [on_reset_pressed, h]

/-- Witness for C8 at concrete inputs: the freshly constructed view has
both slots unset, so both presses are no-ops; and after setting `1` then
`2`, a press invokes `2`. -/
theorem press_handler_callback_slots_witness :
    (on_click_pressed (initView Nat) = (initView Nat, none)) ∧
    (on_reset_pressed (initView Nat) = (initView Nat, none)) ∧
    (on_click_pressed
      (set_click_listener (set_click_listener (initView Nat) 1) 2)).2 =
        some 2 ∧
    (on_reset_pressed
      (set_reset_listener (set_reset_listener (initView Nat) 1) 2)).2 =
        some 2 :=
  ⟨(press_handler_callback_slots (initView Nat) 1 2).1 rfl,
   (press_handler_callback_slots (initView Nat) 1 2).2.1 rfl,
   (press_handler_callback_slots (initView Nat) 1 2).2.2.1,
   (press_handler_callback_slots (initView Nat) 1 2).2.2.2⟩

/-- C9.  At any point after controller construction — immediately after
it (`ps = []`, covering the constructor's initial push) and after any
sequence of button presses — the view's numeric readout is the decimal
string of the model's `get_count()`. -/
theorem display_shows_get_count (ps : List Press) :
    (run_presses init_app ps).view.display_text =
      toString (get_count (run_presses init_app ps).model) :=
  (run_presses_synced ps init_app init_app_synced).2.2.2

/-- C10.  `add_observer` appends unconditionally (no membership check),
so the same subscriber may be registered several times; each mutator
invokes a subscriber's `update()` once per registration it holds; a
single `remove_observer` deletes exactly one registration; and a
subscriber registered at least twice is still notified by the increment
following one removal. -/
theorem duplicate_registration_semantics
    (m : ClickCounterModel) (s : Subscriber) (n : Nat) :
    (s.is_instance_of_Observer = true →
      add_observer m s = Except.ok { m with observers := m.observers ++ [s] }) ∧
    (m.observers.count s = n →
      (increment m).2.count s = n ∧ (reset m).2.count s = n) ∧
    (remove_observer m s).observers.count s = m.observers.count s - 1 ∧
    (2 ≤ m.observers.count s → s ∈ (increment (remove_observer m s)).2) := by
  refine ⟨?_, ?_, ?_, ?_⟩
  · intro h
    simp [add_observer, h]
  · intro h
    exact ⟨h, h⟩
  · by_cases hmem : s ∈ m.observers
    · simp [remove_observer, hmem, List.count_erase_self]
    · have h0 : m.observers.count s = 0 := List.count_eq_zero.mpr hmem
      simp [remove_observer, hmem, h0]
  · intro h2
    have hmem : s ∈ m.observers := by
      have : 0 < m.observers.count s := by omega
      exact List.count_pos_iff.mp this
    have hpos : 0 < (m.observers.erase s).count s := by
      rw [List.count_erase_self]
      omega
    have hs : s ∈ m.observers.erase s := List.count_pos_iff.mp hpos
    simpa [increment, notify_observers, remove_observer, hmem] using hs

/-- Witness for C10 at concrete inputs: register the conforming
subscriber a second time, observe two `update()` calls per mutation,
remove once, and see the next increment still notify it. -/
theorem duplicate_registration_semantics_witness :
    (add_observer ⟨0, [conforming_subscriber]⟩ conforming_subscriber =
      Except.ok ⟨0, [conforming_subscriber, conforming_subscriber]⟩) ∧
    ((increment ⟨0, [conforming_subscriber, conforming_subscriber]⟩).2.count
        conforming_subscriber = 2 ∧
      (reset ⟨0, [conforming_subscriber, conforming_subscriber]⟩).2.count
        conforming_subscriber = 2) ∧
    (remove_observer ⟨0, [conforming_subscriber, conforming_subscriber]⟩
        conforming_subscriber).observers.count conforming_subscriber = 1 ∧
    conforming_subscriber ∈
      (increment
        (remove_observer ⟨0, [conforming_subscriber, conforming_subscriber]⟩
          conforming_subscriber)).2 :=
  ⟨(duplicate_registration_semantics ⟨0, [conforming_subscriber]⟩
      conforming_subscriber 1).1 rfl,
   (duplicate_registration_semantics
      ⟨0, [conforming_subscriber, conforming_subscriber]⟩
      conforming_subscriber 2).2.1 (by decide),
   (duplicate_registration_semantics
      ⟨0, [conforming_subscriber, conforming_subscriber]⟩
      conforming_subscriber 2).2.2.1,
   (duplicate_registration_semantics
      ⟨0, [conforming_subscriber, conforming_subscriber]⟩
      conforming_subscriber 2).2.2.2 (by decide)⟩
